import Mathlib

/-!
# Verification of the fuzzy-phids backend repository

Shallow embedding of the repository's model layer
(`src/routes/orders.js` holding the `Order` and `Insect` models,
`src/unnamed/part_001` holding the `User` model) against the relational
schema in `src/fuzzy-schema.sql`.

JavaScript objects returned to callers are modelled as association lists
`List (String × JsValue)` so that field presence/absence (`delete user.password`)
is expressible.  The relational store is modelled as explicit state:
a `Store` of typed rows for the three tables.  Numbers are `ℚ`
(the schema's `DECIMAL`/`NUMERIC` columns), timestamps are opaque strings.
Mutating operations return `Except JsError α × Store`; a database error
leaves the store unchanged (one statement = one atomic step).
-/

namespace FuzzyPhids

/-- A JavaScript value, as far as the repository's payloads need:
strings, numbers, booleans, null, undefined, arrays and objects. -/
inductive JsValue where
  | str (s : String)
  | num (q : ℚ)
  | bool (b : Bool)
  | nullv
  | undef
  | arr (elems : List JsValue)
  | obj (fields : List (String × JsValue))

/-- JavaScript truthiness, used by guards such as `if (species)` in
`Insect.findAll` and `if (data.password)` in `User.update`. -/
def isTruthy : JsValue → Bool
  | .str s => s != ""
  | .num q => q != 0
  | .bool b => b
  | .nullv => false
  | .undef => false
  | .arr _ => true
  | .obj _ => true

/-- The failure kinds the embedded operations can surface: the repository's
`expressError` classes (`BadRequestError`, `NotFoundError`,
`UnauthorizedError`), plus runtime failures the source can actually hit —
a strict-mode `ReferenceError` for an unbound identifier, a database
error (syntax / unknown column / bad cast) raised by the relational
engine, and a `TypeError`-style rejection from the hashing collaborator. -/
inductive JsError where
  | badRequest (msg : String)
  | notFound (msg : String)
  | unauthorized (msg : String)
  | referenceError (msg : String)
  | dbError (msg : String)
  | jsTypeError (msg : String)
deriving DecidableEq, Repr

deriving instance DecidableEq for Except

/-! ## Rows of the three tables (src/fuzzy-schema.sql) -/

/-- A row of the `insects` table:
`id SERIAL PRIMARY KEY, species VARCHAR NOT NULL, price DECIMAL(10,2), url_image TEXT NOT NULL`. -/
structure InsectRow where
  id : Int
  species : String
  price : ℚ
  url_image : String
deriving DecidableEq, Repr

/-- One element of an order's `items JSONB` array.  The schema comment says
items are stored as a JSON array of ids referencing insects; nothing stops a
row from holding objects instead (e.g. `{price: …}`), and `Order.getTotal`
reads `item.price`, so both shapes are representable. -/
inductive OrderItem where
  | idRef (n : Int)
  | priced (price : ℚ)
deriving DecidableEq, Repr

/-- `item.price` in JavaScript: `undefined` (here `none`) on a bare id. -/
def itemPrice : OrderItem → Option ℚ
  | .idRef _ => none
  | .priced p => some p

/-- A row of the `orders` table: `id SERIAL PRIMARY KEY, phone, delivery_address,
submit_time TIMESTAMP, total NUMERIC(10,2), items JSONB, user_order_id INTEGER`
(nullable). -/
structure OrderRow where
  id : Int
  phone : String
  delivery_address : String
  submit_time : String
  total : ℚ
  items : List OrderItem
  user_order_id : Option Int
deriving DecidableEq, Repr

/-- A row of the `users` table: `id SERIAL PRIMARY KEY, username VARCHAR NOT NULL,
password TEXT NOT NULL, email TEXT NOT NULL, is_admin BOOLEAN NOT NULL,
orders INTEGER[] NOT NULL`.  Note the schema puts no UNIQUE constraint on
`username` (uniqueness is only a pre-insert check), so the store is a plain list. -/
structure UserRow where
  id : Int
  username : String
  password : String
  email : String
  isAdmin : Bool
  orders : List Int
deriving DecidableEq, Repr

/-- The relational store: sole source of truth for the three tables. -/
structure Store where
  insects : List InsectRow
  orders : List OrderRow
  users : List UserRow
deriving DecidableEq, Repr

/-! ## Character-level recognizers for the embedded SQL text

`Order.create` issues two statements whose literal text is embedded below;
the relational engine parses a statement before executing it, so the model
first runs these recognizers (specialised to the simple `SELECT`/`INSERT`
shapes at hand) and raises `dbError` when the text is ill-formed. -/

/-- `tok` is a prefix of `cs` (on characters). -/
def isPrefixOfChars : List Char → List Char → Bool
  | [], _ => true
  | _ :: _, [] => false
  | a :: as, b :: bs => a == b && isPrefixOfChars as bs

/-- The characters following the first occurrence of `tok`, if it occurs. -/
def afterToken (tok : List Char) : List Char → Option (List Char)
  | [] => none
  | c :: cs =>
    if isPrefixOfChars tok (c :: cs) then some ((c :: cs).drop tok.length)
    else afterToken tok cs

/-- Characters before the first occurrence of `c`. -/
def takeUntilChar (c : Char) : List Char → List Char
  | [] => []
  | d :: ds => if d == c then [] else d :: takeUntilChar c ds

/-- The text of a statement's `WHERE` clause, when it has one. -/
def whereTail (sql : String) : Option (List Char) :=
  afterToken "WHERE".toList sql.toList

/-- A `WHERE` clause of the simple `col = $k [AND col = $k]*` shape is
ill-formed when its conditions are joined by a comma instead of `AND`
(a syntax error for the relational engine). -/
def whereHasCommaJoin (sql : String) : Bool :=
  match whereTail sql with
  | some cs => cs.contains ','
  | none => false

/-- The contents of the first parenthesised group of the statement
(for an `INSERT`, its target-column list). -/
def firstParenGroup (sql : String) : List Char :=
  match afterToken ['('] sql.toList with
  | some cs => takeUntilChar ')' cs
  | none => []

/-- The contents of the second parenthesised group
(for an `INSERT`, its `VALUES` list). -/
def secondParenGroup (sql : String) : List Char :=
  match afterToken ['('] sql.toList with
  | some cs =>
    match afterToken ['('] cs with
    | some ds => takeUntilChar ')' ds
    | none => []
  | none => []

/-- Number of comma-separated entries in a character run (0 for the empty run). -/
def commaEntryCount (cs : List Char) : Nat :=
  if cs.isEmpty then 0 else cs.countP (· == ',') + 1

/-- Number of `$k` placeholders in a character run. -/
def placeholderCount (cs : List Char) : Nat :=
  cs.countP (· == '$')

/-- An `INSERT … (cols) VALUES (placeholders)` statement is rejected by the
engine when the two lists differ in length
("INSERT has more target columns than expressions"). -/
def insertArityMismatch (sql : String) : Bool :=
  commaEntryCount (firstParenGroup sql) != placeholderCount (secondParenGroup sql)

/-! ## List utilities shared by the models -/

/-- Insert into a list sorted by `le` (the `ORDER BY` of the queries). -/
def insertByLe (le : α → α → Bool) (a : α) : List α → List α
  | [] => [a]
  | b :: bs => if le a b then a :: b :: bs else b :: insertByLe le a bs

/-- Sort by `le`: the model of a query's `ORDER BY` clause. -/
def sortByLe (le : α → α → Bool) : List α → List α
  | [] => []
  | a :: as => insertByLe le a (sortByLe le as)

theorem mem_insertByLe (le : α → α → Bool) (a x : α) (l : List α) :
    x ∈ insertByLe le a l ↔ x = a ∨ x ∈ l := by
  induction l with
  | nil => simp [insertByLe]
  | cons b bs ih =>
    simp only [insertByLe]
    split
    · simp
    · simp only [List.mem_cons, ih]
      tauto

/-- Lexicographic comparison on characters: the collation model for the
queries' `ORDER BY` over text columns. -/
def charListLe : List Char → List Char → Bool
  | [], _ => true
  | _ :: _, [] => false
  | a :: as, b :: bs => if a == b then charListLe as bs else decide (a < b)

/-- `a ≤ b` on strings, lexicographically by code point. -/
def stringLe (a b : String) : Bool :=
  charListLe a.toList b.toList

theorem mem_sortByLe (le : α → α → Bool) (x : α) (l : List α) :
    x ∈ sortByLe le l ↔ x ∈ l := by
  induction l with
  | nil => simp [sortByLe]
  | cons a as ih => simp [sortByLe, mem_insertByLe, ih]

/-- `pat` occurs as a substring of `hay` (`ILIKE '%pat%'` for a pattern free
of wildcard characters); the empty pattern matches everything. -/
def containsSubstring (hay pat : String) : Bool :=
  pat == "" || (afterToken pat.toList hay.toList).isSome

/-- Case-insensitive substring match: the semantics of the
`species ILIKE $k` clause with value `%…%`. -/
def ilikeContains (hay pat : String) : Bool :=
  containsSubstring ⟨hay.toList.map Char.toLower⟩ ⟨pat.toList.map Char.toLower⟩

/-! ## Credential hashing collaborator -/

/-- Modelled from the spec: the credential-hashing collaborator (`bcrypt`,
§6 of the spec, configured by `BCRYPT_WORK_FACTOR` in `config.js`, which is
not in the snapshot) is a one-way salted hash with a verify function.  It is
modelled as an injective tagging function; one-wayness is irrelevant to the
claims, only that a hash is distinguishable from the plaintext and that
verification compares a password against a stored hash. -/
def bcryptHash (password : String) : String :=
  "bcrypt$" ++ password

/-- Modelled from the spec: `bcrypt.compare(password, storedHash)` succeeds
exactly when hashing the candidate reproduces the stored hash. -/
def bcryptCompare (password storedHash : String) : Bool :=
  bcryptHash password == storedHash

/-! ## The field-allowlist mapper (`sqlForPartialUpdate`) -/

/-- The mapper's output: the emitted column names in order (the k-th uses
placeholder `$k`, 1-based and contiguous) and the matching ordered values. -/
structure PartialUpdateSql where
  cols : List String
  vals : List JsValue

/-- Modelled from the spec: the helper `sqlForPartialUpdate` lives in
`helpers/sql.js`, which is not in the repository snapshot — only its callers
(`Insect.update`, `User.update`) are.  Per §4.1 of the spec: `data` must be
non-empty, else `InvalidArgument` (a `BadRequestError`); only keys present in
both `data` and `columnNameOf` are emitted, unknown keys are silently
ignored; placeholder indices are assigned in `data`'s iteration order,
1-based and contiguous, with `vals` in the same order. -/
def sqlForPartialUpdate (data : List (String × JsValue))
    (columnNameOf : List (String × String)) : Except JsError PartialUpdateSql :=
  if data.isEmpty then .error (.badRequest "No data")
  else
    let kept := data.filter (fun kv => (columnNameOf.lookup kv.1).isSome)
    .ok { cols := kept.map (fun kv => (columnNameOf.lookup kv.1).getD ""),
          vals := kept.map (·.2) }

/-! ## Insect model (`src/routes/orders.js`, class `Insect`) -/

/-- The query-string filters the insects route passes through to
`Insect.findAll` (route documentation: `minPrice`, `maxPrice`,
`speciesLike`).  The model function destructures only
`{ minPrice, maxPrice, species }` from this object, so a `speciesLike`
entry is representable but never read. -/
structure InsectSearchFilters where
  minPrice : Option ℚ := none
  maxPrice : Option ℚ := none
  species : Option String := none
  speciesLike : Option String := none

/-- JavaScript `>` on possibly-undefined numbers: comparison with
`undefined` is `false`. -/
def jsGtOpt : Option ℚ → Option ℚ → Bool
  | some a, some b => decide (a > b)
  | _, _ => false

/-- The `price >= $k` clause, present only when `minPrice` was supplied. -/
def minPriceMatches : Option ℚ → ℚ → Bool
  | none, _ => true
  | some a, p => decide (a ≤ p)

/-- The `price <= $k` clause, present only when `maxPrice` was supplied. -/
def maxPriceMatches : Option ℚ → ℚ → Bool
  | none, _ => true
  | some b, p => decide (p ≤ b)

/-- The `species ILIKE $k` clause with value `%species%`, appended only when
`species` is truthy (`if (species)` in the source). -/
def speciesClauseMatches : Option String → String → Bool
  | none, _ => true
  | some s, sp => if s == "" then true else ilikeContains sp s

/-- `Insect.findAll(searchFilters)` (src/routes/orders.js, lines 321-363):
destructures `{ minPrice, maxPrice, species }`, throws `BadRequestError`
when `minPrice > maxPrice`, builds the conjunction of the clauses for the
filters that are present, and returns the matching rows
`ORDER BY species` ascending. -/
def insectFindAll (st : Store) (f : InsectSearchFilters) :
    Except JsError (List InsectRow) :=
  let minPrice := f.minPrice
  let maxPrice := f.maxPrice
  let species := f.species
  if jsGtOpt minPrice maxPrice then
    .error (.badRequest "Min price cannot be greater than max")
  else
    .ok (sortByLe (fun a b => stringLe a.species b.species)
      (st.insects.filter (fun r =>
        minPriceMatches minPrice r.price
          && maxPriceMatches maxPrice r.price
          && speciesClauseMatches species r.species)))

/-- The `jsToSql` allowlist `Insect.update` passes to the mapper. -/
def insectUpdateColumnMap : List (String × String) :=
  [("price", "price"), ("url_image", "url_image")]

/-- Columns of the `insects` table (src/fuzzy-schema.sql). -/
def insectColumns : List String := ["id", "species", "price", "url_image"]

/-- Statement-analysis of the generated `SET` assignments: the engine
rejects an unknown column or a value that cannot be cast to the column's
type before touching any row.  `none` means the statement is accepted. -/
def checkInsectAssigns : List (String × JsValue) → Option JsError
  | [] => none
  | ("price", .num _) :: rest => checkInsectAssigns rest
  | ("url_image", .str _) :: rest => checkInsectAssigns rest
  | (c, _) :: _ =>
    if insectColumns.contains c then
      some (.dbError ("invalid input for column " ++ c))
    else
      some (.dbError ("column \"" ++ c ++ "\" of relation \"insects\" does not exist"))

/-- Apply accepted `SET` assignments to one row, left to right. -/
def setInsectAssigns (r : InsectRow) : List (String × JsValue) → InsectRow
  | [] => r
  | ("price", .num q) :: rest => setInsectAssigns { r with price := q } rest
  | ("url_image", .str s) :: rest => setInsectAssigns { r with url_image := s } rest
  | _ :: rest => setInsectAssigns r rest

/-- `Insect.update(id, data)` (src/routes/orders.js, lines 402-425): runs the
mapper with allowlist `{price, url_image}`, executes
`UPDATE insects SET … WHERE id = $n RETURNING id, species, price, url_image`,
and throws `NotFoundError` when no row was updated.  A `SET` clause with no
assignments (every key of `data` unknown) is a syntax error for the engine;
any statement error leaves the store unchanged. -/
def insectUpdate (st : Store) (id : Int) (data : List (String × JsValue)) :
    Except JsError InsectRow × Store :=
  match sqlForPartialUpdate data insectUpdateColumnMap with
  | .error e => (.error e, st)
  | .ok pu =>
    if pu.cols.isEmpty then
      (.error (.dbError "syntax error in UPDATE statement: empty SET clause"), st)
    else
      let assigns := pu.cols.zip pu.vals
      match checkInsectAssigns assigns with
      | some e => (.error e, st)
      | none =>
        match st.insects.filter (fun r => r.id == id) with
        | [] => (.error (.notFound ("No insect: " ++ toString id)), st)
        | r :: _ =>
          (.ok (setInsectAssigns r assigns),
           { st with insects :=
              st.insects.map (fun x => if x.id == id then setInsectAssigns x assigns else x) })

/-! ## Order model (`src/routes/orders.js`, class `Order`) -/

/-- The payload `Order.create` destructures. -/
structure OrderNewData where
  phone : String
  delivery_address : String
  submit_time : String
  items : List OrderItem
  total : ℚ
  user_order_id : Option Int

/-- The duplicate-check statement of `Order.create` (lines 118-122),
verbatim.  Its `WHERE` clause joins its two conditions with a comma instead
of `AND`. -/
def orderCreateDupCheckSQL : String :=
"SELECT user_order_id, submit_time
           FROM orders
           WHERE user_order_id = $1, submit_time = $2"

/-- The insert statement of `Order.create` (lines 128-131), verbatim.  It
lists six target columns but only five `VALUES` placeholders, while the
call site binds six values. -/
def orderCreateInsertSQL : String :=
"INSERT INTO orders
           (phone, delivery_address, submit_time, items, total, user_order_id)
           VALUES ($1, $2, $3, $4, $5)
           RETURNING id, phone, delivery_address, submit_time, items, total, user_order_id"

/-- The id the store generates for a fresh `orders` row (`SERIAL`). -/
def nextOrderId (st : Store) : Int :=
  (st.orders.map (·.id)).foldl max 0 + 1

/-- `Order.create(data)` (src/routes/orders.js, lines 117-139): runs the
duplicate-check query and throws `BadRequestError` on a hit, otherwise
inserts and returns the new row.  Each statement is parsed by the engine
before execution, so a malformed statement raises `dbError` instead; the
branches past a failed parse carry the statement's intended two-predicate
semantics and are unreachable while the embedded text is what it is. -/
def orderCreate (st : Store) (d : OrderNewData) : Except JsError OrderRow × Store :=
  if whereHasCommaJoin orderCreateDupCheckSQL then
    (.error (.dbError "syntax error at or near \",\""), st)
  else if st.orders.any (fun o =>
      o.user_order_id == d.user_order_id && o.submit_time == d.submit_time) then
    (.error (.badRequest ("Duplicate order: "
       ++ (match d.user_order_id with | some n => toString n | none => "null")
       ++ "@" ++ d.submit_time)), st)
  else if insertArityMismatch orderCreateInsertSQL then
    (.error (.dbError "INSERT has more target columns than expressions"), st)
  else
    let row : OrderRow :=
      { id := nextOrderId st, phone := d.phone,
        delivery_address := d.delivery_address, submit_time := d.submit_time,
        total := d.total, items := d.items, user_order_id := d.user_order_id }
    (.ok row, { st with orders := st.orders ++ [row] })

/-- The query-string filters the orders route passes to `Order.findAll`
(`minTotal`, `maxTotal` coerced to numbers; `user_order_id` left as the
query-string text). -/
structure OrderSearchFilters where
  minTotal : Option ℚ := none
  maxTotal : Option ℚ := none
  user_order_id : Option String := none

/-- The identifiers bound in the scope of `Order.findAll`
(src/routes/orders.js, lines 152-197): the module's top-level bindings and
the function's locals, including the three fields destructured from
`searchFilters` on line 164.  The guard on line 166 reads `minPrice` and
`maxPrice`, which are not among them: under `"use strict"` that lookup
throws a `ReferenceError`. -/
def orderFindAllScope : List String :=
  ["db", "BadRequestError", "NotFoundError", "Order",
   "searchFilters", "query", "whereExpressions", "queryValues",
   "minTotal", "maxTotal", "user_order_id"]

/-- The `total >= $k` clause, present only when `minTotal` was supplied. -/
def minTotalMatches : Option ℚ → ℚ → Bool
  | none, _ => true
  | some a, t => decide (a ≤ t)

/-- The `total <= $k` clause, present only when `maxTotal` was supplied. -/
def maxTotalMatches : Option ℚ → ℚ → Bool
  | none, _ => true
  | some b, t => decide (t ≤ b)

/-- `Order.findAll(searchFilters)` (src/routes/orders.js, lines 152-197):
destructures `{ minTotal, maxTotal, user_order_id }`, then evaluates
`if (minPrice > maxPrice)` — identifiers not in scope, so the strict-mode
lookup of `minPrice` throws.  The remainder (unreachable): conjunctive
`total` bounds; when `user_order_id` is truthy the value `%…%` is bound to
the clause `user_order_id = $k`, which the engine fails to cast to the
column's INTEGER type; results `ORDER BY submit_time` ascending. -/
def orderFindAll (st : Store) (f : OrderSearchFilters) :
    Except JsError (List OrderRow) :=
  if orderFindAllScope.contains "minPrice" then
    if orderFindAllScope.contains "maxPrice" then
      let rows := st.orders.filter (fun o =>
        minTotalMatches f.minTotal o.total && maxTotalMatches f.maxTotal o.total)
      match f.user_order_id with
      | some s =>
        if s != "" then
          .error (.dbError ("invalid input syntax for type integer: \"%" ++ s ++ "%\""))
        else
          .ok (sortByLe (fun a b => stringLe a.submit_time b.submit_time) rows)
      | none =>
        .ok (sortByLe (fun a b => stringLe a.submit_time b.submit_time) rows)
    else .error (.referenceError "maxPrice is not defined")
  else .error (.referenceError "minPrice is not defined")

/-- The record `Order.get` returns: the base order row with its raw `items`
value replaced by the rows of the follow-up insect query. -/
structure OrderDetail where
  id : Int
  phone : String
  delivery_address : String
  submit_time : String
  total : ℚ
  user_order_id : Option Int
  items : List InsectRow
deriving DecidableEq, Repr

/-- `Order.get(id)` (src/routes/orders.js, lines 207-229): fetches the order
row or throws `NotFoundError`; then runs
`SELECT id, species, price, url_image FROM insects WHERE id = $1 ORDER BY species`
with the parameter bound to the same `id` argument — the order's id, not an
item id — and overwrites `order.items` with the resulting rows. -/
def orderGet (st : Store) (id : Int) : Except JsError OrderDetail :=
  match st.orders.find? (fun o => o.id == id) with
  | none => .error (.notFound ("No order: " ++ toString id))
  | some o =>
    .ok { id := o.id, phone := o.phone, delivery_address := o.delivery_address,
          submit_time := o.submit_time, total := o.total,
          user_order_id := o.user_order_id,
          items := sortByLe (fun a b => stringLe a.species b.species)
            (st.insects.filter (fun i => i.id == id)) }

/-- The sales-tax rate: `const taxRate = 0.10` (line 263). -/
def taxRate : ℚ := 10 / 100

/-- One step of the accumulation loop in `Order.getTotal` (lines 261-266):
`totalCost += item.price * (1 + taxRate)`.  `none` models `NaN`: reading
`.price` from a bare item id yields `undefined`, and any arithmetic with it
poisons the running total. -/
def taxStep (acc : Option ℚ) (item : OrderItem) : Option ℚ :=
  match acc, itemPrice item with
  | some t, some p => some (t + p * (1 + taxRate))
  | _, _ => none

/-- `Math.round`: round half toward positive infinity; `NaN` stays `NaN`. -/
def jsMathRound : Option ℚ → Option Int
  | none => none
  | some q => some ⌊q + 1 / 2⌋

/-- `Order.getTotal(orderId)` (src/routes/orders.js, lines 248-269): throws
`NotFoundError` when no order has that id; otherwise folds the taxed item
prices from `0` and returns `Math.round` of the running total. -/
def orderGetTotal (st : Store) (orderId : Int) : Except JsError (Option Int) :=
  match st.orders.find? (fun o => o.id == orderId) with
  | none => .error (.notFound ("No order found with ID: " ++ toString orderId))
  | some o => .ok (jsMathRound (o.items.foldl taxStep (some 0)))

/-! ## User model (`src/unnamed/part_001`, class `User`) -/

/-- `User.authenticate(username, password)` (src/unnamed/part_001, lines
24-62): queries the rows matching the username; throws
`UnauthorizedError('User not found')` when there are none; compares the
candidate password against the first row's stored hash and throws
`UnauthorizedError('Wrong password')` on mismatch; on success returns the
object `{ username, email, isAdmin }`. -/
def userAuthenticate (st : Store) (username password : String) :
    Except JsError (List (String × JsValue)) :=
  match st.users.filter (fun u => u.username == username) with
  | [] => .error (.unauthorized "User not found")
  | u :: _ =>
    if bcryptCompare password u.password then
      .ok [("username", .str username), ("email", .str u.email),
           ("isAdmin", .bool u.isAdmin)]
    else .error (.unauthorized "Wrong password")

/-- One element of an order's `items` array, as JSON. -/
def orderItemToJs : OrderItem → JsValue
  | .idRef n => .num (n : ℚ)
  | .priced p => .obj [("price", .num p)]

/-- A row of the follow-up query in `User.get`
(`SELECT id, phone, delivery_address, submit_time, items, user_order_id
FROM orders WHERE user_order_id = $1`), as the JavaScript object the
store driver hands back. -/
def orderRowToJs (o : OrderRow) : JsValue :=
  .obj [("id", .num (o.id : ℚ)), ("phone", .str o.phone),
        ("delivery_address", .str o.delivery_address),
        ("submit_time", .str o.submit_time),
        ("items", .arr (o.items.map orderItemToJs)),
        ("user_order_id",
          match o.user_order_id with | some n => .num (n : ℚ) | none => .nullv)]

/-- `User.get(username)` (src/unnamed/part_001, lines 136-160): selects
`id, username, password, email, is_admin AS "isAdmin", orders`, throws
`NotFoundError` when no row matches, then overwrites the `orders` field with
the order rows whose `user_order_id` equals the user's `id`.  The `password`
column is selected and never removed from the returned object. -/
def userGet (st : Store) (username : String) :
    Except JsError (List (String × JsValue)) :=
  match st.users.filter (fun u => u.username == username) with
  | [] => .error (.notFound ("No user: " ++ username))
  | u :: _ =>
    .ok [("id", .num (u.id : ℚ)), ("username", .str u.username),
         ("password", .str u.password), ("email", .str u.email),
         ("isAdmin", .bool u.isAdmin),
         ("orders", .arr ((st.orders.filter
            (fun o => o.user_order_id == some u.id)).map orderRowToJs))]

/-- Lines 180-182 of `User.update`: `if (data.password) data.password =
await bcrypt.hash(data.password, BCRYPT_WORK_FACTOR)` — a truthiness test,
not a presence test, and the hashing collaborator rejects a non-string. -/
def rehashIfTruthy (data : List (String × JsValue)) :
    Except JsError (List (String × JsValue)) :=
  match data.lookup "password" with
  | some v =>
    if isTruthy v then
      match v with
      | .str s =>
        .ok (data.map (fun kv =>
          if kv.1 == "password" then (kv.1, .str (bcryptHash s)) else kv))
      | _ => .error (.jsTypeError "data must be a string")
    else .ok data
  | none => .ok data

/-- The `jsToSql` allowlist `User.update` passes to the mapper.  Note it maps
`isAdmin` to the column name `"isAdmin"`, while the `users` table's column is
`is_admin`. -/
def userUpdateColumnMap : List (String × String) :=
  [("username", "username"), ("password", "password"), ("isAdmin", "isAdmin")]

/-- Columns of the `users` table (src/fuzzy-schema.sql). -/
def userColumns : List String :=
  ["id", "username", "password", "email", "is_admin", "orders"]

/-- Statement-analysis of the generated `SET` assignments against the
`users` table: an unknown column (such as `"isAdmin"`) or an uncastable
value is rejected before any row is touched. -/
def checkUserAssigns : List (String × JsValue) → Option JsError
  | [] => none
  | ("username", .str _) :: rest => checkUserAssigns rest
  | ("password", .str _) :: rest => checkUserAssigns rest
  | (c, _) :: _ =>
    if userColumns.contains c then
      some (.dbError ("invalid input for column " ++ c))
    else
      some (.dbError ("column \"" ++ c ++ "\" of relation \"users\" does not exist"))

/-- Apply accepted `SET` assignments to one user row, left to right. -/
def setUserAssigns (r : UserRow) : List (String × JsValue) → UserRow
  | [] => r
  | ("username", .str s) :: rest => setUserAssigns { r with username := s } rest
  | ("password", .str s) :: rest => setUserAssigns { r with password := s } rest
  | _ :: rest => setUserAssigns r rest

/-- The object built by the `RETURNING username, "password", email,
is_admin AS "isAdmin"` clause of `User.update`'s statement. -/
def userReturningRow (u : UserRow) : List (String × JsValue) :=
  [("username", .str u.username), ("password", .str u.password),
   ("email", .str u.email), ("isAdmin", .bool u.isAdmin)]

/-- `User.update(username, data)` (src/unnamed/part_001, lines 179-207):
re-hashes `data.password` when truthy, runs the mapper with allowlist
`{username, password, isAdmin}`, executes
`UPDATE users SET … WHERE username = $n RETURNING …` (updating every row
matching the username — the schema has no UNIQUE constraint), throws
`NotFoundError` when no row was updated, and finally does
`delete user.password` on the returned object. -/
def userUpdate (st : Store) (username : String) (data : List (String × JsValue)) :
    Except JsError (List (String × JsValue)) × Store :=
  match rehashIfTruthy data with
  | .error e => (.error e, st)
  | .ok data' =>
    match sqlForPartialUpdate data' userUpdateColumnMap with
    | .error e => (.error e, st)
    | .ok pu =>
      if pu.cols.isEmpty then
        (.error (.dbError "syntax error in UPDATE statement: empty SET clause"), st)
      else
        let assigns := pu.cols.zip pu.vals
        match checkUserAssigns assigns with
        | some e => (.error e, st)
        | none =>
          match st.users.filter (fun u => u.username == username) with
          | [] => (.error (.notFound ("No user: " ++ username)), st)
          | u :: _ =>
            (.ok ((userReturningRow (setUserAssigns u assigns)).filter
                (fun kv => kv.1 != "password")),
             { st with users :=
                st.users.map (fun x =>
                  if x.username == username then setUserAssigns x assigns else x) })

/-! ## Claims -/

/-- C1: the claim says `Order.create` fails with `DuplicateEntity` exactly
when an order with the same `(user_order_id, submit_time)` pair exists and
otherwise inserts and returns the new record.  In the source the
duplicate-check statement's `WHERE` clause joins its two conditions with a
comma (`WHERE user_order_id = $1, submit_time = $2`), which the relational
engine rejects as a syntax error before any row is read, so every call —
duplicate or not — fails with a database error, the store is never changed,
and no record is ever inserted or returned.  (The insert statement is
independently broken: six target columns, five placeholders.) -/
theorem c1_order_create_always_db_error (st : Store) (d : OrderNewData) :
    orderCreate st d = (.error (.dbError "syntax error at or near \",\""), st)
      ∧ insertArityMismatch orderCreateInsertSQL = true := by
  have h : whereHasCommaJoin orderCreateDupCheckSQL = true := by decide
  exact ⟨by simp [orderCreate, h], by decide⟩

/-- C2: the claim says `Order.findAll` fails with `InvalidArgument` when
`minTotal > maxTotal` and otherwise returns the conjunctively filtered
orders by `submit_time`.  The source's range guard reads `minPrice` and
`maxPrice` — identifiers bound nowhere in the function or its module — so
under `"use strict"` every call throws
`ReferenceError: minPrice is not defined` before any filter is applied,
regardless of the supplied filters. -/
theorem c2_order_findAll_reference_error (st : Store) (f : OrderSearchFilters) :
    orderFindAll st f = .error (.referenceError "minPrice is not defined") := by
  have h : orderFindAllScope.contains "minPrice" = false := by decide
  unfold orderFindAll
  rw [h]
  simp

/-- An insect row used to exhibit the `Order.get` item-lookup bug. -/
def c3Ant : InsectRow := { id := 1, species := "Ant", price := 2, url_image := "ant.jpg" }

/-- An insect row used to exhibit the `Order.get` item-lookup bug. -/
def c3Bee : InsectRow := { id := 2, species := "Bee", price := 3, url_image := "bee.jpg" }

/-- The insect whose id collides with the order's id below. -/
def c3Moth : InsectRow := { id := 5, species := "Moth", price := 4, url_image := "moth.jpg" }

/-- An order whose `items` list references insects 1 and 2, with order id 5. -/
def c3Order : OrderRow :=
  { id := 5, phone := "555-0100", delivery_address := "1 Elm St",
    submit_time := "2024-01-01T00:00:00", total := 5,
    items := [.idRef 1, .idRef 2], user_order_id := some 7 }

/-- Store for the C3 counterexample run. -/
def c3Store : Store := { insects := [c3Ant, c3Bee, c3Moth], orders := [c3Order], users := [] }

/-- C3: the claim says `Order.get` replaces the order's raw item-id list with
one detail record per insect id in the order's `items`.  The source's
follow-up query is `SELECT … FROM insects WHERE id = $1` with the parameter
bound to the **order's** id, so for the order with id 5 and items `[1, 2]`
the attached list is the single insect whose id happens to equal 5 — not the
details of insects 1 and 2. -/
theorem c3_order_get_items_looked_up_by_order_id :
    orderGet c3Store 5 =
      .ok { id := 5, phone := "555-0100", delivery_address := "1 Elm St",
            submit_time := "2024-01-01T00:00:00", total := 5,
            user_order_id := some 7, items := [c3Moth] }
      ∧ c3Order.items = [.idRef 1, .idRef 2] := by
  exact ⟨rfl, rfl⟩

/-- Store for the C4 counterexample run: two insects, one matching the
`speciesLike` pattern and one not. -/
def c4Store : Store :=
  { insects := [{ id := 2, species := "Bee", price := 3, url_image := "bee.jpg" },
                { id := 1, species := "Ant", price := 2, url_image := "ant.jpg" }],
    orders := [], users := [] }

/-- C4: the claim says a filter map supplying the key `speciesLike`
restricts the results to case-insensitive substring matches on `species`.
The source destructures `{ minPrice, maxPrice, species }` from the filter
object and never reads `speciesLike`, so the filter
`{ speciesLike: "bee" }` returns every insect (ordered by species) — the
row `"Ant"`, which does not contain `"bee"`, is returned as well. -/
theorem c4_speciesLike_filter_ignored :
    insectFindAll c4Store { speciesLike := some "bee" } =
      .ok [{ id := 1, species := "Ant", price := 2, url_image := "ant.jpg" },
           { id := 2, species := "Bee", price := 3, url_image := "bee.jpg" }]
      ∧ ilikeContains "Ant" "bee" = false := by
  exact ⟨by decide, by decide⟩

/-- Folding the tax loop over a list of priced items accumulates the sum of
`price * (1 + taxRate)` on top of the running total. -/
theorem taxFold_map_priced (ps : List ℚ) :
    ∀ t : ℚ, (ps.map OrderItem.priced).foldl taxStep (some t) =
      some (t + (ps.map (fun p => p * (1 + taxRate))).sum) := by
  induction ps with
  | nil => intro t; simp [taxStep]
  | cons p ps ih =>
    intro t
    simp only [List.map_cons, List.foldl_cons, taxStep, itemPrice, List.sum_cons, ih]
    congr 1
    ring

/-- C5: for an order id present in the store whose items each carry a price,
`Order.getTotal` multiplies each item's price by `1 + taxRate = 1.10`, sums
the taxed amounts and returns `Math.round` of the sum — rounding half up —
so an order with items priced `[10, 5]` yields `round(16.5) = 17`; for an
absent order id it fails with `NotFound`. -/
theorem c5_order_getTotal_tax_and_rounding (st : Store) (oid : Int) :
    (st.orders.find? (fun o => o.id == oid) = none →
      orderGetTotal st oid =
        .error (.notFound ("No order found with ID: " ++ toString oid))) ∧
    (∀ o : OrderRow, st.orders.find? (fun o => o.id == oid) = some o →
      ∀ ps : List ℚ, o.items = ps.map OrderItem.priced →
      orderGetTotal st oid =
        .ok (some ⌊(ps.map (fun p => p * (1 + taxRate))).sum + 1 / 2⌋)) ∧
    (∀ o : OrderRow, st.orders.find? (fun o => o.id == oid) = some o →
      o.items = [.priced 10, .priced 5] →
      orderGetTotal st oid = .ok (some 17)) := by
  refine ⟨fun h => by simp [orderGetTotal, h], ?_, ?_⟩
  · intro o h ps hitems
    simp [orderGetTotal, h, hitems, taxFold_map_priced, jsMathRound]
  · intro o h hitems
    simp only [orderGetTotal, h, hitems]
    have : ([OrderItem.priced 10, OrderItem.priced 5] : List OrderItem)
        = ([10, 5] : List ℚ).map OrderItem.priced := rfl
    rw [this, taxFold_map_priced]
    simp only [jsMathRound, Except.ok.injEq, Option.some.injEq]
    rw [show (0 : ℚ) + (([10, 5] : List ℚ).map (fun p => p * (1 + taxRate))).sum + 1 / 2
        = (17 : ℤ) by simp [taxRate]; norm_num]
    exact Int.floor_intCast 17

/-- The order whose total the C5 witness computes. -/
def c5Order : OrderRow :=
  { id := 1, phone := "555-0101", delivery_address := "2 Oak St",
    submit_time := "2024-02-02T00:00:00", total := 0,
    items := [.priced 10, .priced 5], user_order_id := some 1 }

/-- Store for the C5 witness run. -/
def c5Store : Store := { insects := [], orders := [c5Order], users := [] }

/-- Witness for C5: a concrete store where the order with id 1 has items
priced `[10, 5]` and `getTotal` returns `17`. -/
theorem c5_order_getTotal_witness :
    c5Store.orders.find? (fun o => o.id == (1 : Int)) = some c5Order ∧
    c5Order.items = [.priced 10, .priced 5] ∧
    orderGetTotal c5Store 1 = .ok (some 17) :=
  ⟨rfl, rfl, (c5_order_getTotal_tax_and_rounding c5Store 1).2.2 c5Order rfl rfl⟩

/-- C6: with both bounds supplied, `Insect.findAll` fails with the range
`BadRequestError` (the spec's `InvalidArgument`) when `minPrice > maxPrice`,
and when `minPrice ≤ maxPrice` every returned insect's price lies within
the bounds. -/
theorem c6_insect_findAll_price_bounds (st : Store) (f : InsectSearchFilters)
    (a b : ℚ) (hmin : f.minPrice = some a) (hmax : f.maxPrice = some b) :
    (a > b → insectFindAll st f =
      .error (.badRequest "Min price cannot be greater than max")) ∧
    (a ≤ b → ∀ rows, insectFindAll st f = .ok rows →
      ∀ r ∈ rows, a ≤ r.price ∧ r.price ≤ b) := by
  constructor
  · intro hab
    have hgt : jsGtOpt f.minPrice f.maxPrice = true := by
      simp [jsGtOpt, hmin, hmax, hab]
    simp [insectFindAll, hgt]
  · intro hab rows hok r hr
    have hgt : jsGtOpt f.minPrice f.maxPrice = false := by
      simp [jsGtOpt, hmin, hmax]
      exact hab
    simp only [insectFindAll, hgt, Bool.false_eq_true, if_false, Except.ok.injEq] at hok
    rw [← hok] at hr
    rw [mem_sortByLe] at hr
    have hcond := List.of_mem_filter hr
    rw [hmin, hmax] at hcond
    simp only [Bool.and_eq_true, minPriceMatches, maxPriceMatches,
      decide_eq_true_eq] at hcond
    exact ⟨hcond.1.1, hcond.1.2⟩

/-- The single insect of the C6 witness store. -/
def c6Insect : InsectRow := { id := 3, species := "Wasp", price := 3, url_image := "wasp.jpg" }

/-- Store for the C6 witness run. -/
def c6Store : Store := { insects := [c6Insect], orders := [], users := [] }

/-- Filters for the C6 witness run: bounds `2 ≤ price ≤ 5`. -/
def c6Filters : InsectSearchFilters := { minPrice := some 2, maxPrice := some 5 }

/-- Witness for C6: with bounds `[2, 5]` the concrete store's single insect
(price 3) is returned and its price is inside the bounds. -/
theorem c6_insect_findAll_witness :
    (2 : ℚ) ≤ 5 ∧ insectFindAll c6Store c6Filters = .ok [c6Insect] ∧
    ∀ r ∈ [c6Insect], (2 : ℚ) ≤ r.price ∧ r.price ≤ 5 := by
  refine ⟨by norm_num, by decide, ?_⟩
  exact (c6_insect_findAll_price_bounds c6Store c6Filters 2 5 rfl rfl).2
    (by norm_num) [c6Insect] (by decide)

/-- C7: `User.authenticate` fails with `Unauthorized` both when no user with
the username exists and when the candidate password does not match the
stored hash; on success it returns exactly
`{username, email, isAdmin}`, a record with no `password` field. -/
theorem c7_user_authenticate_unauthorized_and_projection
    (st : Store) (username password : String) :
    (st.users.filter (fun u => u.username == username) = [] →
      userAuthenticate st username password =
        .error (.unauthorized "User not found")) ∧
    (∀ u us, st.users.filter (fun x => x.username == username) = u :: us →
      bcryptCompare password u.password = false →
      userAuthenticate st username password =
        .error (.unauthorized "Wrong password")) ∧
    (∀ u us, st.users.filter (fun x => x.username == username) = u :: us →
      bcryptCompare password u.password = true →
      userAuthenticate st username password =
        .ok [("username", .str username), ("email", .str u.email),
             ("isAdmin", .bool u.isAdmin)] ∧
      ∀ kv ∈ [("username", JsValue.str username), ("email", JsValue.str u.email),
              ("isAdmin", JsValue.bool u.isAdmin)], kv.1 ≠ "password") := by
  refine ⟨?_, ?_, ?_⟩
  · intro h; simp [userAuthenticate, h]
  · intro u us h hcmp; simp [userAuthenticate, h, hcmp]
  · intro u us h hcmp
    refine ⟨by simp [userAuthenticate, h, hcmp], ?_⟩
    intro kv hkv
    fin_cases hkv <;> simp

/-- The user of the C7 witness store: the stored password is the hash of
`"hunter2"`. -/
def c7User : UserRow :=
  { id := 4, username := "bob", password := bcryptHash "hunter2",
    email := "bob@example.com", isAdmin := false, orders := [] }

/-- Store for the C7 witness run. -/
def c7Store : Store := { insects := [], orders := [], users := [c7User] }

/-- Witness for C7: authenticating `bob` with the matching password returns
exactly the three-field projection. -/
theorem c7_user_authenticate_witness :
    c7Store.users.filter (fun x => x.username == "bob") = [c7User] ∧
    bcryptCompare "hunter2" c7User.password = true ∧
    userAuthenticate c7Store "bob" "hunter2" =
      .ok [("username", .str "bob"), ("email", .str "bob@example.com"),
           ("isAdmin", .bool false)] :=
  ⟨rfl, by decide,
   ((c7_user_authenticate_unauthorized_and_projection c7Store "bob" "hunter2").2.2
      c7User [] rfl (by decide)).1⟩

/-- C8: `Insect.update` changes only the fields of `data` whose keys are in
the allowlist `{price, url_image}` (the spec's data model names the second
field `image_url`; the source's column and payload key is `url_image`).
For a present id: updating with `{price: v}` returns the full post-update
row — `species` and `url_image` unchanged — and rewrites only that row's
price in the store; updating with only unknown keys leaves the store
untouched (the mapper drops every key, and the resulting empty `SET` clause
is rejected by the engine before any write). -/
theorem c8_insect_update_frame (st : Store) (id : Int)
    (r : InsectRow) (rs : List InsectRow)
    (hrow : st.insects.filter (fun x => x.id == id) = r :: rs) :
    (∀ v : ℚ, insectUpdate st id [("price", .num v)] =
      (.ok { r with price := v },
       { st with insects := st.insects.map (fun x => if x.id == id then { x with price := v } else x) })) ∧
    (∀ data : List (String × JsValue), data ≠ [] →
      (∀ kv ∈ data, kv.1 ≠ "price" ∧ kv.1 ≠ "url_image") →
      insectUpdate st id data =
        (.error (.dbError "syntax error in UPDATE statement: empty SET clause"), st)) := by
  constructor
  · intro v
    simp [insectUpdate, sqlForPartialUpdate, insectUpdateColumnMap, List.lookup,
      checkInsectAssigns, setInsectAssigns, hrow]
  · intro data hne hunk
    have hkept : data.filter
        (fun kv => (insectUpdateColumnMap.lookup kv.1).isSome) = [] := by
      rw [List.filter_eq_nil_iff]
      intro kv hkv
      have h := hunk kv hkv
      have e1 : (kv.1 == "price") = false := beq_eq_false_iff_ne.mpr h.1
      have e2 : (kv.1 == "url_image") = false := beq_eq_false_iff_ne.mpr h.2
      simp [insectUpdateColumnMap, List.lookup, e1, e2]
    have hne' : data.isEmpty = false := by
      cases data with
      | nil => exact absurd rfl hne
      | cons a as => rfl
    simp [insectUpdate, sqlForPartialUpdate, hne', hkept]

/-- The insect row of the C8 witness store. -/
def c8Insect : InsectRow :=
  { id := 9, species := "Ladybird", price := 4, url_image := "lady.jpg" }

/-- Store for the C8 witness run. -/
def c8Store : Store := { insects := [c8Insect], orders := [], users := [] }

/-- Witness for C8: updating insect 9 with `{price: 9.99}` returns the row
with the new price and the old `species`/`url_image`, and an update whose
only key is unknown (`{species: …}` is not in the allowlist) leaves the
store unchanged. -/
theorem c8_insect_update_witness :
    c8Store.insects.filter (fun x => x.id == (9 : Int)) = [c8Insect] ∧
    (insectUpdate c8Store 9 [("price", .num (999 / 100))]).1 =
      .ok { id := 9, species := "Ladybird", price := 999 / 100, url_image := "lady.jpg" } ∧
    (insectUpdate c8Store 9 [("species", .str "Beetle")]).2 = c8Store := by
  have h := c8_insect_update_frame c8Store 9 c8Insect [] rfl
  refine ⟨rfl, ?_, ?_⟩
  · rw [h.1 (999 / 100)]
    rfl
  · rw [h.2 [("species", .str "Beetle")] (by simp)
      (by intro kv hkv; fin_cases hkv; simp)]


/-- C10: for a username present in the store, `User.get` returns the row's
projection **including the stored password hash** — this projection is not
stripped — together with the user's orders, attached by matching each
order's `user_order_id` against the user's `id`. -/
theorem c10_user_get_keeps_hash_and_attaches_orders
    (st : Store) (username : String) (u : UserRow) (us : List UserRow)
    (h : st.users.filter (fun x => x.username == username) = u :: us) :
    userGet st username =
      .ok [("id", .num (u.id : ℚ)), ("username", .str u.username),
           ("password", .str u.password), ("email", .str u.email),
           ("isAdmin", .bool u.isAdmin),
           ("orders", .arr ((st.orders.filter
              (fun o => o.user_order_id == some u.id)).map orderRowToJs))] ∧
    List.lookup "password"
      [("id", JsValue.num (u.id : ℚ)), ("username", JsValue.str u.username),
       ("password", JsValue.str u.password), ("email", JsValue.str u.email),
       ("isAdmin", JsValue.bool u.isAdmin),
       ("orders", JsValue.arr ((st.orders.filter
          (fun o => o.user_order_id == some u.id)).map orderRowToJs))]
      = some (.str u.password) := by
  exact ⟨by simp [userGet, h], rfl⟩

/-- The user of the C10 witness store. -/
def c10User : UserRow :=
  { id := 11, username := "carol", password := bcryptHash "s3cret",
    email := "carol@example.com", isAdmin := true, orders := [21] }

/-- An order belonging to the C10 witness user (`user_order_id = 11`). -/
def c10Order : OrderRow :=
  { id := 21, phone := "555-0102", delivery_address := "3 Pine St",
    submit_time := "2024-03-03T00:00:00", total := 12,
    items := [.idRef 9], user_order_id := some 11 }

/-- Store for the C10 witness run. -/
def c10Store : Store := { insects := [], orders := [c10Order], users := [c10User] }

/-- Witness for C10: fetching `carol` yields a record whose `password` field
still holds the stored hash and whose `orders` field holds her order. -/
theorem c10_user_get_witness :
    c10Store.users.filter (fun x => x.username == "carol") = [c10User] ∧
    userGet c10Store "carol" =
      .ok [("id", .num (11 : ℚ)), ("username", .str "carol"),
           ("password", .str (bcryptHash "s3cret")),
           ("email", .str "carol@example.com"), ("isAdmin", .bool true),
           ("orders", .arr [orderRowToJs c10Order])] :=
  ⟨rfl, (c10_user_get_keeps_hash_and_attaches_orders c10Store "carol"
      c10User [] rfl).1⟩

/-- The user of the C9 stores: her stored password is a proper hash. -/
def c9User : UserRow :=
  { id := 6, username := "alice", password := bcryptHash "old-password",
    email := "alice@example.com", isAdmin := false, orders := [] }

/-- Store for the C9 counterexample and witness runs. -/
def c9Store : Store := { insects := [], orders := [], users := [c9User] }

/-- Counterexample to C9 as stated: the claim says `User.update` re-hashes
`data.password` before storing it whenever that key is **present**.  The
source guards the re-hash with `if (data.password)` — a truthiness test —
so the payload `{password: ""}` (key present, value falsy) skips the hash
and the mapper passes the empty string through: the stored row's password
becomes the literal `""`, which is not `bcryptHash ""` (nor any hash). -/
theorem c9_user_update_empty_password_not_hashed :
    (userUpdate c9Store "alice" [("password", .str "")]).2.users =
      [{ c9User with password := "" }] ∧
    ("" : String) ≠ bcryptHash "" := by
  exact ⟨rfl, by decide⟩

/-- C9 (amended): `User.update` re-hashes `data.password` before storing it
when that key is present with a truthy (non-empty) value — a present but
empty password is stored verbatim, unhashed; for an absent username a
payload carrying a `password` key fails with `NotFound` (an empty payload
would fail with the mapper's `InvalidArgument` instead); and whenever the
call succeeds the returned record never contains the `password` field. -/
theorem c9_user_update_amended (st : Store) (username : String) :
    (∀ (u : UserRow) (us : List UserRow) (s : String),
      st.users.filter (fun x => x.username == username) = u :: us → s ≠ "" →
      userUpdate st username [("password", .str s)] =
        (.ok [("username", .str u.username), ("email", .str u.email),
              ("isAdmin", .bool u.isAdmin)],
         { st with users := st.users.map (fun x => if x.username == username then { x with password := bcryptHash s } else x) })) ∧
    (∀ s : String, st.users.filter (fun x => x.username == username) = [] →
      userUpdate st username [("password", .str s)] =
        (.error (.notFound ("No user: " ++ username)), st)) ∧
    (∀ (data : List (String × JsValue)) (res : List (String × JsValue)) (st' : Store),
      userUpdate st username data = (.ok res, st') →
      List.lookup "password" res = none) := by
  refine ⟨?_, ?_, ?_⟩
  · intro u us s h hs
    simp [userUpdate, rehashIfTruthy, isTruthy, hs, sqlForPartialUpdate,
      userUpdateColumnMap, List.lookup, checkUserAssigns, setUserAssigns,
      userReturningRow, h]
  · intro s h
    by_cases hs : s = ""
    · subst hs
      simp [userUpdate, rehashIfTruthy, isTruthy, sqlForPartialUpdate,
        userUpdateColumnMap, List.lookup, checkUserAssigns, h]
    · simp [userUpdate, rehashIfTruthy, isTruthy, hs, sqlForPartialUpdate,
        userUpdateColumnMap, List.lookup, checkUserAssigns, h]
  · intro data res st' hok
    rcases hre : rehashIfTruthy data with e | data'
    · simp [userUpdate, hre] at hok
    rcases hpu : sqlForPartialUpdate data' userUpdateColumnMap with e | pu
    · simp [userUpdate, hre, hpu] at hok
    rcases hcols : pu.cols.isEmpty with _ | _
    · rcases hchk : checkUserAssigns (pu.cols.zip pu.vals) with _ | e
      · rcases hmatch : st.users.filter (fun u => u.username == username) with _ | ⟨u, us⟩
        · simp [userUpdate, hre, hpu, hcols, hchk, hmatch] at hok
        · simp only [userUpdate, hre, hpu, hcols, Bool.false_eq_true, if_false,
            hchk, hmatch, Prod.mk.injEq, Except.ok.injEq] at hok
          rw [← hok.1]
          simp [userReturningRow, List.lookup]
      · simp [userUpdate, hre, hpu, hcols, hchk] at hok
    · simp [userUpdate, hre, hpu, hcols] at hok

/-- Witness for C9 (amended): updating `alice` with a non-empty password
stores its hash, returns a record without the `password` field, and
updating a missing username fails with `NotFound`. -/
theorem c9_user_update_witness :
    c9Store.users.filter (fun x => x.username == "alice") = [c9User] ∧
    ("new-password" : String) ≠ "" ∧
    userUpdate c9Store "alice" [("password", .str "new-password")] =
      (.ok [("username", .str "alice"), ("email", .str "alice@example.com"),
            ("isAdmin", .bool false)],
       { c9Store with users := [{ c9User with password := bcryptHash "new-password" }] }) ∧
    userUpdate c9Store "nobody" [("password", .str "x")] =
      (.error (.notFound "No user: nobody"), c9Store) := by
  refine ⟨rfl, by decide, ?_, ?_⟩
  · have h := (c9_user_update_amended c9Store "alice").1 c9User [] "new-password"
      rfl (by decide)
    rw [h]
    rfl
  · exact (c9_user_update_amended c9Store "nobody").2.1 "x" rfl

end FuzzyPhids
